import Mathlib

/-!
Shallow embedding of `src/tailornet/models/tailor_networks.py`.

Modelling conventions:
* numeric tensors are modelled over `ℚ` (exact arithmetic standing for the
  float tensors of the source); a fixed-width vector of width `n` is a
  function `Fin n → ℚ`;
* a per-vertex displacement field of `V` vertices is `Fin V → Fin 3 → ℚ`;
  the source's `.view(bs, -1, 3)` reshape of a flat `V*3` network output is
  absorbed into this typing;
* the learned MLP of each sub-network (weights loaded from checkpoints,
  outside the repository) is an abstract function field of the sub-network
  structure;
* `torch.exp` is abstracted as an explicit function parameter `e : ℚ → ℚ`,
  since the transcendental exponential has no exact counterpart on `ℚ`;
  every structural statement below holds for an arbitrary `e`;
* a Python `dict` lookup that may raise `KeyError`, and functions that may
  raise, are modelled with `Option`.
-/

/-- Table of the indices of joints which affect the deformations of a
particular garment (`VALID_THETA`, tailor_networks.py:17-23).  The Python
dict lookup that raises `KeyError` on an unknown key is modelled as an
`Option`-valued function on the category string. -/
def VALID_THETA (cloth_type : String) : Option (List ℕ) :=
  if cloth_type = "t-shirt" then some [0, 1, 2, 3, 6, 9, 12, 13, 14, 16, 17, 18, 19]
  else if cloth_type = "old-t-shirt" then some [0, 1, 2, 3, 6, 9, 12, 13, 14, 16, 17, 18, 19]
  else if cloth_type = "shirt" then some [0, 1, 2, 3, 6, 9, 12, 13, 14, 16, 17, 18, 19, 20, 21]
  else if cloth_type = "pant" then some [0, 1, 2, 4, 5, 7, 8]
  else if cloth_type = "skirt" then some [0, 1, 2]
  else none

/-- `mask_thetas` (tailor_networks.py:25-34): the 72-vector is viewed as
24 joints × 3 components, a 0/1 mask is set to 1 on the valid joints, and
the input is multiplied elementwise by the mask.  Flat component `i`
belongs to joint `i / 3`.  The `KeyError` raised by `VALID_THETA[cloth_type]`
on an unknown category is modelled by `Option`. -/
def mask_thetas (thetas : Fin 72 → ℚ) (cloth_type : String) : Option (Fin 72 → ℚ) :=
  (VALID_THETA cloth_type).map fun valid_theta =>
    fun i => thetas i * (if i.val / 3 ∈ valid_theta then 1 else 0)

/-- `mask_betas` (tailor_networks.py:36-44): the mask is 1 exactly on the
fixed index list `valid_beta = [0, 1]`; the `cloth_type` argument is
accepted but never used (in particular no `VALID_THETA` lookup happens). -/
def mask_betas (betas : Fin 10 → ℚ) (cloth_type : String) : Fin 10 → ℚ :=
  fun i => betas i * (if i.val ∈ ([0, 1] : List ℕ) then 1 else 0)

/-- The fixed offset tensor `[[0., 0., 1.5, 0.]]` added to masked gammas for
the `old-t-shirt` category (tailor_networks.py:56-57). -/
def gamma_offset : Fin 4 → ℚ := ![0, 0, 1.5, 0]

/-- `mask_gammas` (tailor_networks.py:46-58): the mask is 1 exactly on the
fixed index list `valid_gamma = [0, 1]`; after masking, if the category is
`old-t-shirt` the fixed offset `gamma_offset` is added.  No `VALID_THETA`
lookup happens. -/
def mask_gammas (gammas : Fin 4 → ℚ) (cloth_type : String) : Fin 4 → ℚ :=
  let masked := fun i : Fin 4 => gammas i * (if i.val ∈ ([0, 1] : List ℕ) then 1 else 0)
  if cloth_type = "old-t-shirt" then
    fun i => masked i + gamma_offset i
  else
    masked

/-- `mask_inputs` (tailor_networks.py:60-67): masks each of the three
inputs that is present (`None` inputs are passed through unchanged).  Only
the `thetas` branch can raise (`KeyError` from `VALID_THETA`), modelled by
the outer `Option`; the result triple mirrors the Python return value. -/
def mask_inputs (thetas : Option (Fin 72 → ℚ)) (betas : Option (Fin 10 → ℚ))
    (gammas : Option (Fin 4 → ℚ)) (cloth_type : String) :
    Option (Option (Fin 72 → ℚ) × Option (Fin 10 → ℚ) × Option (Fin 4 → ℚ)) :=
  match thetas with
  | none =>
      some (none, betas.map (fun b => mask_betas b cloth_type),
        gammas.map (fun g => mask_gammas g cloth_type))
  | some th =>
      (mask_thetas th cloth_type).map fun thm =>
        (some thm, betas.map (fun b => mask_betas b cloth_type),
          gammas.map (fun g => mask_gammas g cloth_type))

/-- `TailorNetLF` (tailor_networks.py:97-116): the low-frequency mesh
generator.  The learned `FullyConnected` MLP (input width 72+10+4, flat
output reshaped to `(batch, V, 3)` by the callers) is abstracted as the
function field `mlp`; the reshape is absorbed into its result type. -/
structure TailorNetLF (V : ℕ) where
  cloth_type : String
  mlp : (Fin (72 + 10 + 4) → ℚ) → Fin V → Fin 3 → ℚ

/-- `TailorNetLF.forward` (tailor_networks.py:113-116): mask all three
inputs (all present, so `mask_inputs` reduces to the three single-input
masks, with `mask_thetas` the only fallible one), concatenate them along
the feature dimension, and apply the MLP. -/
def TailorNetLF.forward {V : ℕ} (m : TailorNetLF V) (thetas : Fin 72 → ℚ)
    (betas : Fin 10 → ℚ) (gammas : Fin 4 → ℚ) : Option (Fin V → Fin 3 → ℚ) :=
  (mask_thetas thetas m.cloth_type).map fun th =>
    m.mlp (Fin.append (Fin.append th (mask_betas betas m.cloth_type))
      (mask_gammas gammas m.cloth_type))

/-- `TailorNetHF` (tailor_networks.py:119-141): one high-frequency mesh
generator (one per pivot).  The learned MLP (input width 72) is abstracted
as the function field `mlp`. -/
structure TailorNetHF (V : ℕ) where
  cloth_type : String
  mlp : (Fin 72 → ℚ) → Fin V → Fin 3 → ℚ

/-- `TailorNetHF.forward` (tailor_networks.py:135-141): masks `thetas` and
applies the MLP; the `betas` and `gammas` parameters occur in the signature
(defaulting to `None`) but are never read by the body. -/
def TailorNetHF.forward {V : ℕ} (m : TailorNetHF V) (thetas : Fin 72 → ℚ)
    (betas : Option (Fin 10 → ℚ)) (gammas : Option (Fin 4 → ℚ)) :
    Option (Fin V → Fin 3 → ℚ) :=
  (mask_thetas thetas m.cloth_type).map fun th => m.mlp th

/-- `TailorNetSS2G` (tailor_networks.py:143-162): the shape/style to
geometry network mapping `(β, γ)` to a canonical-pose rest-vertex field.
The learned MLP (input width 10+4) is abstracted as the field `mlp`. -/
structure TailorNetSS2G (V : ℕ) where
  cloth_type : String
  mlp : (Fin (10 + 4) → ℚ) → Fin V → Fin 3 → ℚ

/-- `TailorNetSS2G.forward` (tailor_networks.py:159-162): masks `betas`
and `gammas` (the `thetas` slot of `mask_inputs` is `None`, so this path
is total), concatenates them and applies the MLP. -/
def TailorNetSS2G.forward {V : ℕ} (m : TailorNetSS2G V) (betas : Fin 10 → ℚ)
    (gammas : Fin 4 → ℚ) : Fin V → Fin 3 → ℚ :=
  m.mlp (Fin.append (mask_betas betas m.cloth_type) (mask_gammas gammas m.cloth_type))

/-- `TailorNet` (tailor_networks.py:168-248): the orchestrator, after its
one-time construction.  `basis` is the canonical per-pivot rest-pose vertex
field `dataset.unpose_v` (`P` pivots × `V` vertices × 3), `tailornet_hfs`
the ordered pivot-indexed collection of high-frequency sub-models,
`kernel_sigma` the RBF bandwidth.  Checkpoint and dataset I/O of the
constructor is outside the model. -/
structure TailorNet (P V : ℕ) where
  kernel_sigma : ℚ
  basis : Fin P → Fin V → Fin 3 → ℚ
  tailornet_lf : TailorNetLF V
  tailornet_hfs : Fin P → TailorNetHF V
  tailornet_ss2g : TailorNetSS2G V

/-- The `rest_verts` value of `TailorNet.interp4` (tailor_networks.py:294)
for one batch element: the SS2G forward pass on `(β, γ)`. -/
def ss2g_rest {P V : ℕ} (m : TailorNet P V) (betas : Fin 10 → ℚ) (gammas : Fin 4 → ℚ) :
    Fin V → Fin 3 → ℚ :=
  m.tailornet_ss2g.forward betas gammas

/-- The `dist` value of `TailorNet.interp4` (tailor_networks.py:304-305)
for one batch element and one pivot: squared componentwise differences
between `rest_verts` and the pivot's basis vector are summed over the
coordinate axis, averaged over the vertex axis, and scaled by 1000. -/
def interp4_dist {P V : ℕ} (m : TailorNet P V) (betas : Fin 10 → ℚ) (gammas : Fin 4 → ℚ)
    (p : Fin P) : ℚ :=
  ((∑ v : Fin V, ∑ k : Fin 3, (ss2g_rest m betas gammas v k - m.basis p v k) ^ 2) / (V : ℚ))
    * 1000

/-- The unnormalized RBF `weight` of `TailorNet.interp4`
(tailor_networks.py:309), `exp(-dist/sigma)`, with `torch.exp` abstracted
as the parameter `e`. -/
def interp4_weight {P V : ℕ} (m : TailorNet P V) (e : ℚ → ℚ) (sigma : ℚ)
    (betas : Fin 10 → ℚ) (gammas : Fin 4 → ℚ) (p : Fin P) : ℚ :=
  e (-(interp4_dist m betas gammas p) / sigma)

/-- The normalized weight of `TailorNet.interp4` (tailor_networks.py:311):
each pivot's weight divided by the per-batch-element sum over pivots.  The
source has no guard on the denominator. -/
def interp4_weightN {P V : ℕ} (m : TailorNet P V) (e : ℚ → ℚ) (sigma : ℚ)
    (betas : Fin 10 → ℚ) (gammas : Fin 4 → ℚ) (p : Fin P) : ℚ :=
  interp4_weight m e sigma betas gammas p / ∑ q : Fin P, interp4_weight m e sigma betas gammas q

/-- `TailorNet.interp4` (tailor_networks.py:288-315): blends the stacked
pivot fields `pred_disp_pivot` (batch × P × V × 3) with the normalized RBF
weights, broadcast over the vertex and coordinate axes and summed over the
pivot axis.  All tensor operations act independently per batch element
`b`, which the model makes explicit; `thetas` occurs in the source
signature but is never read by the body. -/
def TailorNet.interp4 {P V B : ℕ} (m : TailorNet P V) (e : ℚ → ℚ)
    (thetas : Fin B → Fin 72 → ℚ) (betas : Fin B → Fin 10 → ℚ) (gammas : Fin B → Fin 4 → ℚ)
    (pred_disp_pivot : Fin B → Fin P → Fin V → Fin 3 → ℚ) (sigma : ℚ) :
    Fin B → Fin V → Fin 3 → ℚ :=
  fun b v k =>
    ∑ p : Fin P, pred_disp_pivot b p v k * interp4_weightN m e sigma (betas b) (gammas b) p

/-- Modelled from the spec's wording of the kernel blending stage (spec
§4.5 steps 1-5, and claim C1), as one closed formula: per-pivot distance is
the vertex-mean squared Euclidean distance between the rest-vertex field
and the pivot basis times 1000, the unnormalized weight is `e(-dist/sigma)`,
and the output is the weighted sum of the pivot fields under the
sum-normalized weights.  To be compared with `TailorNet.interp4`. -/
def kernelBlend_spec {P V : ℕ} (e : ℚ → ℚ) (sigma : ℚ) (rest : Fin V → Fin 3 → ℚ)
    (basis : Fin P → Fin V → Fin 3 → ℚ) (pivotFields : Fin P → Fin V → Fin 3 → ℚ) :
    Fin V → Fin 3 → ℚ :=
  let d : Fin P → ℚ := fun p =>
    1000 * ((∑ v : Fin V, ∑ k : Fin 3, (rest v k - basis p v k) ^ 2) / (V : ℚ))
  let w : Fin P → ℚ := fun p => e (-(d p) / sigma)
  fun v k => ∑ p : Fin P, (w p / ∑ q : Fin P, w q) * pivotFields p v k

/-- `TailorNet.forward` (tailor_networks.py:263-286) over a typed batch of
size `B`: stack the `P` high-frequency forwards into
`pred_disp_hf_pivot` (batch × P × V × 3), blend them with `interp4` using
`self.kernel_sigma`, run the low-frequency forward, and return the
elementwise sum.  A `KeyError` escaping any sub-model (unknown category)
makes the whole call fail, modelled by the `Option` (the `getD` defaults
are unreachable under the guard); there is no input validation of any
other kind in the source. -/
def TailorNet.forward {P V B : ℕ} (m : TailorNet P V) (e : ℚ → ℚ)
    (betas : Fin B → Fin 10 → ℚ) (thetas : Fin B → Fin 72 → ℚ) (gammas : Fin B → Fin 4 → ℚ) :
    Option (Fin B → Fin V → Fin 3 → ℚ) :=
  if (∀ p b, ((m.tailornet_hfs p).forward (thetas b) (some (betas b))
        (some (gammas b))).isSome)
      ∧ (∀ b, (m.tailornet_lf.forward (thetas b) (betas b) (gammas b)).isSome) then
    let pred_disp_hf_pivot : Fin B → Fin P → Fin V → Fin 3 → ℚ := fun b p =>
      ((m.tailornet_hfs p).forward (thetas b) (some (betas b)) (some (gammas b))).getD
        (fun _ _ => 0)
    let pred_disp_hf := m.interp4 e thetas betas gammas pred_disp_hf_pivot m.kernel_sigma
    let pred_disp_lf : Fin B → Fin V → Fin 3 → ℚ := fun b =>
      (m.tailornet_lf.forward (thetas b) (betas b) (gammas b)).getD (fun _ _ => 0)
    some (fun b v k => pred_disp_lf b v k + pred_disp_hf b v k)
  else
    none

/-- The runtime failures that can escape `TailorNet.forward`, plus the
`batchSizeMismatch` error named by the spec (which the source never
raises: the source contains no batch-size validation). -/
inductive TorchError
  /-- Python `KeyError` from a `VALID_THETA` lookup on an unknown category. -/
  | keyError
  /-- `torch.cat` along dim 1 with operands of differing batch sizes
  (raised inside `TailorNetSS2G.forward` when the β and γ batches
  disagree). -/
  | catColumnMismatch
  /-- a tensor shape failure (`view` / broadcasting / `torch.cat`) later in
  the blending or low-frequency stages, once the β/γ batch size disagrees
  with the θ batch size. -/
  | shapeMismatch
  /-- the spec's `BatchSizeMismatch` pre-check error. -/
  | batchSizeMismatch
deriving DecidableEq

/-- One batch row of the success path of `TailorNet.forward`
(tailor_networks.py:263-286): the low-frequency field plus the
RBF-weighted sum of the high-frequency pivot fields for this row's
`(θ, β, γ)`.  The `getD` defaults are unreachable on the paths where this
is used (the category lookups are checked by the caller). -/
def TailorNet.forwardRow {P V : ℕ} (m : TailorNet P V) (e : ℚ → ℚ) (thetas : Fin 72 → ℚ)
    (betas : Fin 10 → ℚ) (gammas : Fin 4 → ℚ) : Fin V → Fin 3 → ℚ :=
  fun v k =>
    ((m.tailornet_lf.forward thetas betas gammas).getD (fun _ _ => 0)) v k
      + ∑ p : Fin P,
          (((m.tailornet_hfs p).forward thetas (some betas) (some gammas)).getD
              (fun _ _ => 0)) v k
            * interp4_weightN m e m.kernel_sigma betas gammas p

/-- `TailorNet.forward` (tailor_networks.py:263-286) at the level of
variable-length batches (lists of rows), tracking where the source fails
when the three batch sizes disagree.  Following the source's order of
evaluation: the high-frequency stage masks θ first (a `KeyError` on an
unknown category surfaces there, before any shape check); `interp4` then
calls `TailorNetSS2G.forward`, whose `torch.cat` of β and γ requires equal
β/γ batch sizes; the subsequent `view(bs, -1, 3)` / broadcasting against
the basis / low-frequency `torch.cat` chain fails whenever the β/γ batch
size differs from the θ batch size (the exact torch operation that raises
depends on divisibility, abstracted here as `shapeMismatch`).  No check
ever produces `batchSizeMismatch`. -/
def TailorNet.forwardB {P V : ℕ} (m : TailorNet P V) (e : ℚ → ℚ)
    (betas : List (Fin 10 → ℚ)) (thetas : List (Fin 72 → ℚ)) (gammas : List (Fin 4 → ℚ)) :
    Except TorchError (List (Fin V → Fin 3 → ℚ)) :=
  if _ : ∀ p, (VALID_THETA (m.tailornet_hfs p).cloth_type).isSome then
    if betas.length = gammas.length then
      if betas.length = thetas.length then
        if (VALID_THETA m.tailornet_lf.cloth_type).isSome then
          .ok ((thetas.zip (betas.zip gammas)).map fun x =>
            m.forwardRow e x.1 x.2.1 x.2.2)
        else .error .keyError
      else .error .shapeMismatch
    else .error .catColumnMismatch
  else .error .keyError

/-- Helper: masking betas is idempotent (the 0/1 mask is multiplicatively
idempotent componentwise). -/
theorem mask_betas_mask_betas (betas : Fin 10 → ℚ) (c : String) :
    mask_betas (mask_betas betas c) c = mask_betas betas c := by
  funext i
  by_cases hi : i.val ∈ ([0, 1] : List ℕ) <;> simp [mask_betas, hi]

/-- Helper: the `old-t-shirt` offset vector vanishes on the valid style
indices `[0, 1]` (its only nonzero entry sits at index 2). -/
theorem gamma_offset_valid (i : Fin 4) (hi : i.val ∈ ([0, 1] : List ℕ)) :
    gamma_offset i = 0 := by
  simp only [List.mem_cons, List.not_mem_nil, or_false] at hi
  rcases hi with h0 | h1
  · have hie : i = 0 := Fin.ext h0
    subst hie
    rfl
  · have hie : i = 1 := Fin.ext h1
    subst hie
    rfl

/-- Helper: componentwise closed form of `mask_gammas` — the masked value
plus the conditional `old-t-shirt` offset. -/
theorem mask_gammas_eval (gammas : Fin 4 → ℚ) (c : String) (i : Fin 4) :
    mask_gammas gammas c i =
      gammas i * (if i.val ∈ ([0, 1] : List ℕ) then 1 else 0)
        + (if c = "old-t-shirt" then gamma_offset i else 0) := by
  by_cases hc : c = "old-t-shirt" <;> simp [mask_gammas, hc]

/-- Helper: masking gammas is idempotent; for `old-t-shirt` the offset's
only nonzero entry sits at index 2, which the mask zeroes again before the
offset is re-added. -/
theorem mask_gammas_mask_gammas (gammas : Fin 4 → ℚ) (c : String) :
    mask_gammas (mask_gammas gammas c) c = mask_gammas gammas c := by
  funext i
  simp only [mask_gammas_eval]
  by_cases hi : i.val ∈ ([0, 1] : List ℕ) <;> by_cases hc : c = "old-t-shirt"
  · rw [if_pos hi, if_pos hc, gamma_offset_valid i hi]
    ring
  · rw [if_pos hi, if_neg hc]
    ring
  · rw [if_neg hi, if_pos hc]
    ring
  · rw [if_neg hi, if_neg hc]
    ring

/-- Helper: a successful `mask_thetas` output is a fixed point of
`mask_thetas` for the same category. -/
theorem mask_thetas_fixed (thetas thm : Fin 72 → ℚ) (c : String)
    (h : mask_thetas thetas c = some thm) : mask_thetas thm c = some thm := by
  rcases ho : VALID_THETA c with _ | l
  · simp [mask_thetas, ho] at h
  · simp only [mask_thetas, ho, Option.map_some', Option.some_inj] at h ⊢
    funext i
    by_cases hi : i.val / 3 ∈ l <;> simp [← h, hi]

/-- C6: for every category in the table and any input vectors, masking
zeroes exactly the components outside the valid-index set and leaves the
others unchanged: for θ the valid components are those of joints in the
category's `VALID_THETA` list, for β and γ the valid indices are `[0, 1]`,
and for the legacy `old-t-shirt` category the fixed `gamma_offset` is
added to γ after masking (so masked γ differs from the pure mask by
exactly that offset, which is 0 on the valid indices). -/
theorem masking_completeness (cloth_type : String) (l : List ℕ)
    (hc : VALID_THETA cloth_type = some l)
    (thetas : Fin 72 → ℚ) (betas : Fin 10 → ℚ) (gammas : Fin 4 → ℚ) :
    (∃ thm, mask_thetas thetas cloth_type = some thm ∧
        ∀ i : Fin 72, (i.val / 3 ∈ l → thm i = thetas i) ∧ (i.val / 3 ∉ l → thm i = 0))
    ∧ (∀ i : Fin 10, (i.val ∈ ([0, 1] : List ℕ) → mask_betas betas cloth_type i = betas i)
        ∧ (i.val ∉ ([0, 1] : List ℕ) → mask_betas betas cloth_type i = 0))
    ∧ (∀ i : Fin 4, (i.val ∈ ([0, 1] : List ℕ) → mask_gammas gammas cloth_type i = gammas i)
        ∧ (i.val ∉ ([0, 1] : List ℕ) → mask_gammas gammas cloth_type i =
            (if cloth_type = "old-t-shirt" then gamma_offset i else 0))) := by
  refine ⟨⟨fun i => thetas i * (if i.val / 3 ∈ l then 1 else 0),
      by rw [mask_thetas, hc, Option.map_some'], ?_⟩, ?_, ?_⟩
  · intro i
    constructor <;> intro hi <;> simp [hi]
  · intro i
    constructor <;> intro hi <;> simp [mask_betas, hi]
  · intro i
    constructor
    · intro hi
      rw [mask_gammas_eval]
      by_cases ho : cloth_type = "old-t-shirt"
      · rw [if_pos hi, if_pos ho, gamma_offset_valid i hi]
        ring
      · rw [if_pos hi, if_neg ho]
        ring
    · intro hi
      rw [mask_gammas_eval]
      by_cases ho : cloth_type = "old-t-shirt"
      · rw [if_neg hi, if_pos ho]
        ring
      · rw [if_neg hi, if_neg ho]
        ring

/-- C6 witness: the theorem applied to the `old-t-shirt` category and
all-ones inputs. -/
theorem masking_completeness_witness :
    ∃ l, VALID_THETA "old-t-shirt" = some l ∧
      ((∃ thm, mask_thetas (fun _ => (1 : ℚ)) "old-t-shirt" = some thm ∧
          ∀ i : Fin 72, (i.val / 3 ∈ l → thm i = (fun _ => (1 : ℚ)) i)
            ∧ (i.val / 3 ∉ l → thm i = 0))
      ∧ (∀ i : Fin 10, (i.val ∈ ([0, 1] : List ℕ) →
            mask_betas (fun _ => 1) "old-t-shirt" i = (fun _ => (1 : ℚ)) i)
          ∧ (i.val ∉ ([0, 1] : List ℕ) → mask_betas (fun _ => 1) "old-t-shirt" i = 0))
      ∧ (∀ i : Fin 4, (i.val ∈ ([0, 1] : List ℕ) →
            mask_gammas (fun _ => 1) "old-t-shirt" i = (fun _ => (1 : ℚ)) i)
          ∧ (i.val ∉ ([0, 1] : List ℕ) → mask_gammas (fun _ => 1) "old-t-shirt" i =
              (if "old-t-shirt" = "old-t-shirt" then gamma_offset i else 0)))) :=
  ⟨_, rfl, masking_completeness "old-t-shirt" _ rfl (fun _ => 1) (fun _ => 1) (fun _ => 1)⟩

/-- C7: applying `mask_inputs` twice with the same category is the same as
applying it once — any successful output triple is a fixed point of
`mask_inputs`, including the `old-t-shirt` γ-offset case. -/
theorem mask_inputs_idempotent (thetas : Option (Fin 72 → ℚ)) (betas : Option (Fin 10 → ℚ))
    (gammas : Option (Fin 4 → ℚ)) (cloth_type : String)
    (r : Option (Fin 72 → ℚ) × Option (Fin 10 → ℚ) × Option (Fin 4 → ℚ))
    (h : mask_inputs thetas betas gammas cloth_type = some r) :
    mask_inputs r.1 r.2.1 r.2.2 cloth_type = some r := by
  have hb : ∀ bo : Option (Fin 10 → ℚ),
      (bo.map (fun b => mask_betas b cloth_type)).map (fun b => mask_betas b cloth_type)
        = bo.map (fun b => mask_betas b cloth_type) := by
    intro bo
    cases bo <;> simp [mask_betas_mask_betas]
  have hg : ∀ go : Option (Fin 4 → ℚ),
      (go.map (fun g => mask_gammas g cloth_type)).map (fun g => mask_gammas g cloth_type)
        = go.map (fun g => mask_gammas g cloth_type) := by
    intro go
    cases go <;> simp [mask_gammas_mask_gammas]
  cases thetas with
  | none =>
      simp only [mask_inputs, Option.some_inj] at h
      subst h
      simp only [mask_inputs, hb, hg]
  | some th =>
      rcases hth : mask_thetas th cloth_type with _ | thm
      · simp [mask_inputs, hth] at h
      · simp only [mask_inputs, hth, Option.map_some', Option.some_inj] at h
        subst h
        simp only [mask_inputs, mask_thetas_fixed th thm cloth_type hth,
          Option.map_some', Option.some_inj, hb, hg]

/-- C7 witness: the theorem applied to all-ones inputs and the
`old-t-shirt` category (exercising the γ-offset branch). -/
theorem mask_inputs_idempotent_witness :
    ∃ r, mask_inputs (some fun _ => (1 : ℚ)) (some fun _ => (1 : ℚ)) (some fun _ => (1 : ℚ))
        "old-t-shirt" = some r ∧
      mask_inputs r.1 r.2.1 r.2.2 "old-t-shirt" = some r :=
  ⟨_, rfl, mask_inputs_idempotent (some fun _ => (1 : ℚ)) (some fun _ => (1 : ℚ))
    (some fun _ => (1 : ℚ)) "old-t-shirt" _ rfl⟩

/-- C8 counterexample: `"hoodie"` is not in the masking table, yet a call
to `mask_inputs` with β and γ present and θ absent succeeds — `mask_betas`
and `mask_gammas` never consult `VALID_THETA`, so no `UnknownCategory`
failure is raised. -/
theorem mask_inputs_unknown_category_no_failure :
    VALID_THETA "hoodie" = none ∧
      (mask_inputs none (some fun _ => (1 : ℚ)) (some fun _ => (1 : ℚ)) "hoodie").isSome
        = true :=
  ⟨by decide, rfl⟩

/-- C8 amended: `mask_inputs` fails (with the Python `KeyError` standing
for `UnknownCategory`) if and only if θ is present and the category is not
in the table; with θ absent it succeeds for any category string, and a
category in the table never fails. -/
theorem mask_inputs_failure_iff (thetas : Option (Fin 72 → ℚ)) (betas : Option (Fin 10 → ℚ))
    (gammas : Option (Fin 4 → ℚ)) (cloth_type : String) :
    mask_inputs thetas betas gammas cloth_type = none ↔
      (thetas.isSome = true ∧ VALID_THETA cloth_type = none) := by
  cases thetas <;>
    simp [mask_inputs, mask_thetas, Option.map_eq_none']

/-- C9: the high-frequency sub-model's forward pass depends only on θ; the
β and γ arguments are accepted but never read, so any two choices of them
give identical output. -/
theorem tailornet_hf_forward_ignores_betas_gammas {V : ℕ} (m : TailorNetHF V)
    (thetas : Fin 72 → ℚ) (betas₁ betas₂ : Option (Fin 10 → ℚ))
    (gammas₁ gammas₂ : Option (Fin 4 → ℚ)) :
    m.forward thetas betas₁ gammas₁ = m.forward thetas betas₂ gammas₂ := rfl

/-- C1: the kernel blending stage computes, for each batch element `b` and
pivot `p`, the distance as the vertex-mean squared Euclidean distance
between the SS2G rest-vertex field and pivot `p`'s basis vector times
1000, the unnormalized weight `e(-dist/sigma)`, and returns the weighted
sum of the pivot fields under the sum-normalized weights — i.e.
`TailorNet.interp4` agrees with the spec-side formula `kernelBlend_spec`
at every batch element. -/
theorem interp4_matches_spec {P V B : ℕ} (m : TailorNet P V) (e : ℚ → ℚ)
    (thetas : Fin B → Fin 72 → ℚ) (betas : Fin B → Fin 10 → ℚ) (gammas : Fin B → Fin 4 → ℚ)
    (pred_disp_pivot : Fin B → Fin P → Fin V → Fin 3 → ℚ) (sigma : ℚ) (b : Fin B) :
    m.interp4 e thetas betas gammas pred_disp_pivot sigma b =
      kernelBlend_spec e sigma (ss2g_rest m (betas b) (gammas b)) m.basis
        (fun p => pred_disp_pivot b p) := by
  funext v k
  have hd : ∀ p : Fin P,
      (1000 : ℚ) * ((∑ w : Fin V, ∑ k2 : Fin 3,
          (ss2g_rest m (betas b) (gammas b) w k2 - m.basis p w k2) ^ 2) / (V : ℚ))
        = interp4_dist m (betas b) (gammas b) p := by
    intro p
    rw [interp4_dist]
    ring
  simp only [TailorNet.interp4, kernelBlend_spec, hd, interp4_weightN, interp4_weight]
  exact Finset.sum_congr rfl fun p _ => by ring

/-- C3: the normalized kernel weights across the pivots sum to 1 for any
batch element whose normalization denominator is nonzero, for any
exponential stand-in `e` and bandwidth. -/
theorem interp4_weights_sum_to_one {P V : ℕ} (m : TailorNet P V) (e : ℚ → ℚ) (sigma : ℚ)
    (betas : Fin 10 → ℚ) (gammas : Fin 4 → ℚ)
    (h : (∑ p : Fin P, interp4_weight m e sigma betas gammas p) ≠ 0) :
    ∑ p : Fin P, interp4_weightN m e sigma betas gammas p = 1 := by
  simp only [interp4_weightN]
  rw [← Finset.sum_div]
  exact div_self h

/-- A concrete one-pivot, one-vertex model used by the witnesses: all
categories `t-shirt`, low-frequency MLP constantly 2, high-frequency MLP
constantly 1, SS2G MLP constantly 0, basis 0, bandwidth 0.01. -/
def modelW : TailorNet 1 1 where
  kernel_sigma := 1 / 100
  basis := fun _ _ _ => 0
  tailornet_lf := { cloth_type := "t-shirt", mlp := fun _ _ _ => 2 }
  tailornet_hfs := fun _ => { cloth_type := "t-shirt", mlp := fun _ _ _ => 1 }
  tailornet_ss2g := { cloth_type := "t-shirt", mlp := fun _ _ _ => 0 }

/-- C3 witness: with `e` constantly 1 the denominator of `modelW` is 1, and
the normalized weights sum to 1. -/
theorem interp4_weights_sum_to_one_witness :
    (∑ p : Fin 1, interp4_weight modelW (fun _ => 1) (1 / 100) (fun _ => 0) (fun _ => 0) p) ≠ 0
    ∧ ∑ p : Fin 1, interp4_weightN modelW (fun _ => 1) (1 / 100) (fun _ => 0) (fun _ => 0) p
        = 1 := by
  have h : (∑ p : Fin 1,
      interp4_weight modelW (fun _ => 1) (1 / 100) (fun _ => 0) (fun _ => 0) p) ≠ 0 := by
    norm_num [interp4_weight]
  exact ⟨h, interp4_weights_sum_to_one modelW (fun _ => 1) (1 / 100) (fun _ => 0) (fun _ => 0) h⟩

/-- The value `torch.exp` actually returns at the failing input of C4: in
float32, `exp(x)` underflows to exactly 0.0 for `x` below about -104, and
every argument `-dist/sigma` arising there is far below that threshold, so
on the relevant inputs the float exponential is the constant 0 function
(the true exponential on ℚ or ℝ is never 0, which is precisely why the
underflow is a float-only degeneracy). -/
def expUnderflow : ℚ → ℚ := fun _ => 0

/-- A concrete two-pivot, one-vertex model whose query sits far from both
pivots: SS2G rest field is 0 while both basis vectors are constantly 10,
giving `dist = 300 * 1000` for each pivot. -/
def modelDeg : TailorNet 2 1 where
  kernel_sigma := 1 / 100
  basis := fun _ _ _ => 10
  tailornet_lf := { cloth_type := "t-shirt", mlp := fun _ _ _ => 2 }
  tailornet_hfs := fun _ => { cloth_type := "t-shirt", mlp := fun _ _ _ => 1 }
  tailornet_ss2g := { cloth_type := "t-shirt", mlp := fun _ _ _ => 0 }

/-- C4, evaluated at the failing input: when every pivot weight underflows
to 0, the blending stage divides by the zero denominator with no epsilon
clamp and no fallback — the normalized weights are NOT the uniform `1/P`
the claim requires (in float arithmetic `0/0` is NaN, which the source's
own debug trace at tailor_networks.py:278 records propagating into the
blended output; over ℚ the division-by-zero junk value is 0, and either
way no uniform fallback exists in the code). -/
theorem interp4_degenerate_weights_unguarded :
    (∀ p : Fin 2,
      interp4_weight modelDeg expUnderflow (1 / 100) (fun _ => 0) (fun _ => 0) p = 0)
    ∧ (∑ p : Fin 2,
        interp4_weight modelDeg expUnderflow (1 / 100) (fun _ => 0) (fun _ => 0) p) = 0
    ∧ (∀ p : Fin 2,
        interp4_weightN modelDeg expUnderflow (1 / 100) (fun _ => 0) (fun _ => 0) p ≠ 1 / 2) := by
  refine ⟨fun p => rfl, by norm_num [interp4_weight, expUnderflow], fun p => ?_⟩
  norm_num [interp4_weightN, interp4_weight, expUnderflow]

/-- C2: on a valid input batch (every sub-model's category is in the
table, witnessed by the successful sub-model outputs `hfFields` and
`lfField`), the orchestrator's forward pass returns exactly the
elementwise sum of the low-frequency field and the `interp4` blend of the
stacked pivot fields, shaped batch × V × 3. -/
theorem tailornet_forward_decomposition {P V B : ℕ} (m : TailorNet P V) (e : ℚ → ℚ)
    (betas : Fin B → Fin 10 → ℚ) (thetas : Fin B → Fin 72 → ℚ) (gammas : Fin B → Fin 4 → ℚ)
    (hfFields : Fin B → Fin P → Fin V → Fin 3 → ℚ) (lfField : Fin B → Fin V → Fin 3 → ℚ)
    (hhf : ∀ (p : Fin P) (b : Fin B),
      (m.tailornet_hfs p).forward (thetas b) (some (betas b)) (some (gammas b))
        = some (hfFields b p))
    (hlf : ∀ b : Fin B,
      m.tailornet_lf.forward (thetas b) (betas b) (gammas b) = some (lfField b)) :
    m.forward e betas thetas gammas =
      some (fun b v k => lfField b v k
        + m.interp4 e thetas betas gammas hfFields m.kernel_sigma b v k) := by
  simp only [TailorNet.forward, hhf, hlf, Option.getD_some]
  rw [if_pos ⟨fun _ _ => rfl, fun _ => rfl⟩]

/-- A batch of one all-zero β sample for the C2 witness. -/
def zeroBatchB : Fin 1 → Fin 10 → ℚ := fun _ _ => 0

/-- A batch of one all-zero θ sample for the C2 witness. -/
def zeroBatchT : Fin 1 → Fin 72 → ℚ := fun _ _ => 0

/-- A batch of one all-zero γ sample for the C2 witness. -/
def zeroBatchG : Fin 1 → Fin 4 → ℚ := fun _ _ => 0

/-- The stacked pivot outputs of `modelW` on the zero batch (constantly 1). -/
def oneFieldsW : Fin 1 → Fin 1 → Fin 1 → Fin 3 → ℚ := fun _ _ _ _ => 1

/-- The low-frequency output of `modelW` on the zero batch (constantly 2). -/
def twoFieldW : Fin 1 → Fin 1 → Fin 3 → ℚ := fun _ _ _ => 2

/-- C2 witness: the theorem applied to `modelW`, a batch of one all-zero
sample and `e` constantly 1. -/
theorem tailornet_forward_decomposition_witness :
    (∀ (p : Fin 1) (b : Fin 1),
      (modelW.tailornet_hfs p).forward (zeroBatchT b) (some (zeroBatchB b))
        (some (zeroBatchG b)) = some (oneFieldsW b p))
    ∧ (∀ b : Fin 1,
      modelW.tailornet_lf.forward (zeroBatchT b) (zeroBatchB b) (zeroBatchG b)
        = some (twoFieldW b))
    ∧ modelW.forward (fun _ => 1) zeroBatchB zeroBatchT zeroBatchG
        = some (fun b v k => twoFieldW b v k
            + modelW.interp4 (fun _ => 1) zeroBatchT zeroBatchB zeroBatchG
                oneFieldsW modelW.kernel_sigma b v k) :=
  ⟨fun _ _ => rfl, fun _ => rfl,
    tailornet_forward_decomposition modelW (fun _ => 1) zeroBatchB zeroBatchT zeroBatchG
      oneFieldsW twoFieldW (fun _ _ => rfl) (fun _ => rfl)⟩

/-- C5 counterexample: a call with β batch size 2 against θ and γ batch
size 1 does not fail with `batchSizeMismatch` — the high-frequency
sub-models run (they read only θ) and the failure is the `torch.cat`
shape error raised inside the blending stage's SS2G call. -/
theorem forward_mismatch_not_batch_size_error :
    modelW.forwardB (fun _ => 1) [fun _ => 0, fun _ => 0] [fun _ => 0] [fun _ => 0]
        = Except.error TorchError.catColumnMismatch
    ∧ TorchError.catColumnMismatch ≠ TorchError.batchSizeMismatch :=
  ⟨rfl, by decide⟩

/-- C5 amended: the orchestrator performs no batch-size pre-check; with
known categories, any disagreement among the three batch sizes surfaces as
a tensor shape error from inside the blending or low-frequency stages
(never as `batchSizeMismatch`), and with equal batch sizes the call
succeeds. -/
theorem forwardB_no_batch_size_check {P V : ℕ} (m : TailorNet P V) (e : ℚ → ℚ)
    (betas : List (Fin 10 → ℚ)) (thetas : List (Fin 72 → ℚ)) (gammas : List (Fin 4 → ℚ))
    (hP : ∀ p, (VALID_THETA (m.tailornet_hfs p).cloth_type).isSome)
    (hL : (VALID_THETA m.tailornet_lf.cloth_type).isSome) :
    (¬ (betas.length = gammas.length ∧ betas.length = thetas.length) →
      ∃ err, m.forwardB e betas thetas gammas = Except.error err
        ∧ err ≠ TorchError.batchSizeMismatch)
    ∧ (betas.length = gammas.length → betas.length = thetas.length →
      m.forwardB e betas thetas gammas
        = Except.ok ((thetas.zip (betas.zip gammas)).map fun x =>
            m.forwardRow e x.1 x.2.1 x.2.2)) := by
  constructor
  · intro hne
    by_cases h1 : betas.length = gammas.length
    · have h2 : ¬ betas.length = thetas.length := fun h2 => hne ⟨h1, h2⟩
      refine ⟨TorchError.shapeMismatch, ?_, by decide⟩
      simp only [TailorNet.forwardB]
      rw [dif_pos hP, if_pos h1, if_neg h2]
    · refine ⟨TorchError.catColumnMismatch, ?_, by decide⟩
      simp only [TailorNet.forwardB]
      rw [dif_pos hP, if_neg h1]
  · intro h1 h2
    simp only [TailorNet.forwardB]
    rw [dif_pos hP, if_pos h1, if_pos h2, if_pos hL]

/-- C5 amended witness: the theorem applied to `modelW` with a mismatched
batch (β batch size 2, θ and γ batch size 1), where the conclusion's first
branch produces a non-`batchSizeMismatch` error. -/
theorem forwardB_no_batch_size_check_witness :
    (∀ p : Fin 1, (VALID_THETA (modelW.tailornet_hfs p).cloth_type).isSome)
    ∧ (VALID_THETA modelW.tailornet_lf.cloth_type).isSome
    ∧ ((¬ (([fun _ => 0, fun _ => 0] : List (Fin 10 → ℚ)).length
            = ([fun _ => 0] : List (Fin 4 → ℚ)).length
          ∧ ([fun _ => 0, fun _ => 0] : List (Fin 10 → ℚ)).length
            = ([fun _ => 0] : List (Fin 72 → ℚ)).length) →
        ∃ err, modelW.forwardB (fun _ => 1) [fun _ => 0, fun _ => 0] [fun _ => 0] [fun _ => 0]
            = Except.error err ∧ err ≠ TorchError.batchSizeMismatch)
      ∧ (([fun _ => 0, fun _ => 0] : List (Fin 10 → ℚ)).length
            = ([fun _ => 0] : List (Fin 4 → ℚ)).length →
          ([fun _ => 0, fun _ => 0] : List (Fin 10 → ℚ)).length
            = ([fun _ => 0] : List (Fin 72 → ℚ)).length →
        modelW.forwardB (fun _ => 1) [fun _ => 0, fun _ => 0] [fun _ => 0] [fun _ => 0]
          = Except.ok ((([fun _ => 0] : List (Fin 72 → ℚ)).zip
              (([fun _ => 0, fun _ => 0] : List (Fin 10 → ℚ)).zip
                ([fun _ => 0] : List (Fin 4 → ℚ)))).map fun x =>
              modelW.forwardRow (fun _ => 1) x.1 x.2.1 x.2.2))) :=
  ⟨fun _ => rfl, rfl,
    forwardB_no_batch_size_check modelW (fun _ => 1) [fun _ => 0, fun _ => 0]
      [fun _ => 0] [fun _ => 0] (fun _ => rfl) rfl⟩

/-- C10: the legacy `old-t-shirt` category has exactly the same valid
joint-index list as `t-shirt`, so masking θ with either category gives the
same result. -/
theorem mask_thetas_old_tshirt_eq_tshirt :
    VALID_THETA "old-t-shirt" = VALID_THETA "t-shirt" ∧
      ∀ thetas : Fin 72 → ℚ,
        mask_thetas thetas "old-t-shirt" = mask_thetas thetas "t-shirt" := by
  have h : VALID_THETA "old-t-shirt" = VALID_THETA "t-shirt" := by decide
  exact ⟨h, fun thetas => by rw [mask_thetas, mask_thetas, h]⟩
